import Mathlib

/-!
Verification development for the flight_status repository.

The definitions below are a shallow embedding of `src/flight_search_tool.rs`
and `src/error.rs`.  JSON values are modelled by an inductive type whose
numbers are rationals (the model of `f64` values carried by `serde_json`),
optional-accessor chains become `Option.bind` chains, and the `call`
function of `FlightSearchTool` is split into its pre-network stage
(credential check and defaulting, which can panic) and its post-network
stage (response parsing, selection and rendering), mirroring the Rust
control flow line by line.
-/

/-- The error enum of src/error.rs (`FlightSearchError`). -/
inductive FlightSearchError where
  | HttpRequestFailed (msg : String)
  | InvalidResponse (msg : String)
  | ApiError (msg : String)
  | MissingApiKey
  deriving Repr, DecidableEq

/-- Model of a parsed `serde_json::Value`.  Numbers are modelled as
rationals; objects as association lists in document order. -/
inductive Json where
  | null
  | bool (b : Bool)
  | num (q : ℚ)
  | str (s : String)
  | arr (elems : List Json)
  | obj (fields : List (String × Json))

/-- Model of `Value::get(key)`: field lookup on objects, `None` otherwise. -/
def Json.get (j : Json) (key : String) : Option Json :=
  match j with
  | .obj fields => (fields.find? fun p => p.1 == key).map (·.2)
  | _ => none

/-- Model of `Value::as_array`. -/
def Json.asArr (j : Json) : Option (List Json) :=
  match j with
  | .arr elems => some elems
  | _ => none

/-- Model of `Value::as_str`. -/
def Json.asStr (j : Json) : Option String :=
  match j with
  | .str s => some s
  | _ => none

/-- Model of `Value::as_u64`: the number must be a nonnegative integer
below 2 to the 64. -/
def Json.asU64 (j : Json) : Option Nat :=
  match j with
  | .num q => if q.den = 1 ∧ 0 ≤ q.num ∧ q.num < 2 ^ 64 then some q.num.toNat else none
  | _ => none

/-- Model of `Value::as_f64` (every JSON number converts). -/
def Json.asF64 (j : Json) : Option ℚ :=
  match j with
  | .num q => some q
  | _ => none

/-- The structured record built per surviving raw offer
(`FlightOption` in src/flight_search_tool.rs). -/
structure FlightOption where
  airline : String
  flight_number : String
  departure : String
  arrival : String
  duration : String
  stops : Nat
  price : ℚ
  currency : String
  deriving Repr, DecidableEq

/-- The tool arguments (`FlightSearchArgs` in src/flight_search_tool.rs).
`adults` is a `u8` in the source; its numeric range plays no role here. -/
structure FlightSearchArgs where
  source : String
  destination : String
  departure_date : Option String
  return_date : Option String
  service : Option String
  adults : Option Nat
  currency : Option String
  deriving Repr, DecidableEq

/-- First leg of an item: `item.get("legs").and_then(as_array).and_then(first)`. -/
def legsFirst (item : Json) : Option Json :=
  ((item.get "legs").bind Json.asArr).bind List.head?

/-- Airline extraction chain of lines 165-176 of src/flight_search_tool.rs. -/
def extractAirline (item : Json) : String :=
  ((((((legsFirst item).bind (·.get "carriers")).bind
      (·.get "marketing")).bind Json.asArr).bind List.head?).bind
      (fun carrier => (carrier.get "name").bind Json.asStr)).getD "Unknown Airline"

/-- Flight-number extraction chain of lines 177-187. -/
def extractFlightNumber (item : Json) : String :=
  (((((legsFirst item).bind (·.get "segments")).bind Json.asArr).bind
      List.head?).bind
      (fun seg => (seg.get "flightNumber").bind Json.asStr)).getD ""

/-- Departure extraction chain of lines 189-196. -/
def extractDeparture (item : Json) : String :=
  (((legsFirst item).bind (·.get "departure")).bind Json.asStr).getD ""

/-- Arrival extraction chain of lines 197-204. -/
def extractArrival (item : Json) : String :=
  (((legsFirst item).bind (·.get "arrival")).bind Json.asStr).getD ""

/-- The minutes count read by the duration chain (lines 206-211). -/
def durationMinutesOf (item : Json) : Option Nat :=
  ((legsFirst item).bind (·.get "durationInMinutes")).bind Json.asU64

/-- Reformatting of a minutes count (line 212 of src/flight_search_tool.rs). -/
def fmtMins (mins : Nat) : String :=
  toString (mins / 60) ++ " hours " ++ toString (mins % 60) ++ " minutes"

/-- Duration extraction of lines 206-213. -/
def extractDuration (item : Json) : String :=
  ((durationMinutesOf item).map fmtMins).getD "Unknown duration"

/-- Stop-count extraction of lines 215-221. -/
def extractStops (item : Json) : Nat :=
  (((legsFirst item).bind (·.get "stopCount")).bind Json.asU64).getD 0

/-- Price fallback chain of lines 223-235: first pricing option amount,
then the flat price.raw field, then 0. -/
def priceOf (item : Json) : ℚ :=
  (((((((item.get "pricingOptions").bind Json.asArr).bind List.head?).bind
      (·.get "price")).bind (·.get "amount")).bind Json.asF64).orElse
      (fun _ => (((item.get "price").bind (·.get "raw")).bind Json.asF64))).getD 0

/-- The per-offer currency code (lines 237-248 before the `unwrap_or`):
first pricing option currencyCode, then the flat price.currency field. -/
def perOfferCurrency (item : Json) : Option String :=
  ((((((item.get "pricingOptions").bind Json.asArr).bind List.head?).bind
      (·.get "price")).bind (·.get "currencyCode")).bind Json.asStr).orElse
      (fun _ => ((((item.get "price").bind (·.get "currency")).bind Json.asStr)))

/-- The requested currency: `args.currency.unwrap_or("USD")` (line 87). -/
def requestedCurrency (args : FlightSearchArgs) : String :=
  args.currency.getD "USD"

/-- One iteration of the item loop (lines 163-263): every field is
extracted and the option is kept only when the resolved price is
strictly positive (`if price > 0.0`, line 252). -/
def parseItem (requested : String) (item : Json) : Option FlightOption :=
  let price := priceOf item
  if 0 < price then
    some
      { airline := extractAirline item
        flight_number := extractFlightNumber item
        departure := extractDeparture item
        arrival := extractArrival item
        duration := extractDuration item
        stops := extractStops item
        price := price
        currency := (perOfferCurrency item).getD requested }
  else
    none

/-- The inner item loop with the early `break 'outer` of lines 264-266:
after each item, once five options were accumulated the whole bucket
walk stops.  The boolean records whether the outer break fired. -/
def pushItems (requested : String) (acc : List FlightOption) :
    List Json → List FlightOption × Bool
  | [] => (acc, false)
  | item :: rest =>
    let acc' :=
      match parseItem requested item with
      | some o => acc ++ [o]
      | none => acc
    if 5 ≤ acc'.length then (acc', true) else pushItems requested acc' rest

/-- The bucket loop of lines 161-269: buckets without an items array are
skipped; otherwise the item loop runs and a fired break stops everything. -/
def collectBuckets (requested : String) (acc : List FlightOption) :
    List Json → List FlightOption
  | [] => acc
  | bucket :: rest =>
    match (bucket.get "items").bind Json.asArr with
    | none => collectBuckets requested acc rest
    | some items =>
      match pushItems requested acc items with
      | (acc', true) => acc'
      | (acc', false) => collectBuckets requested acc' rest

/-- The itinerary container lookup of lines 156-158: the direct key first,
then nested under the data wrapper. -/
def itinerariesOf (data : Json) : Option Json :=
  (data.get "itineraries").orElse
    (fun _ => (data.get "data").bind (·.get "itineraries"))

/-- The full option-collection phase of lines 154-271. -/
def flightOptionsOf (requested : String) (data : Json) : List FlightOption :=
  match itinerariesOf data with
  | none => []
  | some itins =>
    match (itins.get "buckets").bind Json.asArr with
    | none => []
    | some buckets => collectBuckets requested [] buckets

/-- All raw items of all buckets, in upstream order (the sequence the two
nested loops would traverse without the cap). -/
def allItems (data : Json) : List Json :=
  match itinerariesOf data with
  | none => []
  | some itins =>
    match (itins.get "buckets").bind Json.asArr with
    | none => []
    | some buckets =>
      buckets.flatMap fun b => ((b.get "items").bind Json.asArr).getD []

/-- Two-digit zero padding. -/
def pad2 (n : Nat) : String :=
  if n < 10 then "0" ++ toString n else toString n

/-- Model of Rust fixed-point formatting with precision 2 for the
nonnegative finite values reaching the output (rounding to nearest). -/
def formatPrice (q : ℚ) : String :=
  let c : Nat := (round (100 * q)).toNat
  toString (c / 100) ++ "." ++ pad2 (c % 100)

/-- The stops rendering of lines 289-293. -/
def renderStops (n : Nat) : String :=
  if n = 0 then "Non-stop" else toString n ++ " stop(s)"

/-- One numbered output block (lines 279-298); `i` counts from zero. -/
def renderOption (i : Nat) (o : FlightOption) : String :=
  toString (i + 1) ++ ". **Airline**: " ++ o.airline ++ "\n" ++
  "   - **Flight Number**: " ++ o.flight_number ++ "\n" ++
  "   - **Departure**: " ++ o.departure ++ "\n" ++
  "   - **Arrival**: " ++ o.arrival ++ "\n" ++
  "   - **Duration**: " ++ o.duration ++ "\n" ++
  "   - **Stops**: " ++ renderStops o.stops ++ "\n" ++
  "   - **Price**: " ++ formatPrice o.price ++ " " ++ o.currency ++ "\n"

/-- The report of lines 276-299. -/
def renderReport (opts : List FlightOption) : String :=
  "Here are some flight options:\n\n" ++ String.join (opts.mapIdx renderOption)

/-- The response-processing phase of `call` (lines 150-301), from a parsed
body to the returned `Result`: empty collection yields the fixed sentence,
otherwise the rendered report; no error is ever produced by this phase. -/
def processResponse (requested : String) (data : Json) :
    Except FlightSearchError String :=
  let opts := flightOptionsOf requested data
  if opts.isEmpty then
    .ok "No flights found for the given criteria."
  else
    .ok (renderReport opts)

/-- A calendar date, used to model chrono NaiveDate values flowing through
the `%Y-%m-%d` format. -/
structure Date where
  y : Nat
  m : Nat
  d : Nat
  deriving Repr, DecidableEq

/-- Gregorian leap-year test. -/
def isLeap (y : Nat) : Bool :=
  (y % 4 == 0 && y % 100 != 0) || y % 400 == 0

/-- Days in a Gregorian month. -/
def daysInMonth (y m : Nat) : Nat :=
  if m = 2 then (if isLeap y then 29 else 28)
  else if m = 4 ∨ m = 6 ∨ m = 9 ∨ m = 11 then 30
  else 31

/-- Calendar validity, restricted to four-digit years (every date the
`Utc::now() + 30 days` default can produce in practice). -/
def ValidDate (dt : Date) : Prop :=
  1 ≤ dt.m ∧ dt.m ≤ 12 ∧ 1 ≤ dt.d ∧ dt.d ≤ daysInMonth dt.y dt.m ∧ dt.y ≤ 9999

instance (dt : Date) : Decidable (ValidDate dt) := by
  unfold ValidDate; infer_instance

/-- The decimal digit character for `k % 10`. -/
def digitChar (k : Nat) : Char :=
  Char.ofNat (48 + k % 10)

/-- Numeric value of a digit character. -/
def digitVal (c : Char) : Nat :=
  c.toNat - 48

/-- Digit test on a character. -/
def isDigitChar (c : Char) : Bool :=
  48 ≤ c.toNat && c.toNat ≤ 57

/-- Two-digit rendering of a field of the `%Y-%m-%d` format. -/
def pad2d (n : Nat) : String :=
  String.mk [digitChar (n / 10), digitChar n]

/-- Four-digit rendering of the year of the `%Y-%m-%d` format. -/
def pad4d (n : Nat) : String :=
  String.mk [digitChar (n / 1000), digitChar (n / 100), digitChar (n / 10), digitChar n]

/-- Model of chrono date formatting with the `%Y-%m-%d` format string
(the DATE_FORMAT constant of src/flight_search_tool.rs). -/
def formatDate (dt : Date) : String :=
  pad4d dt.y ++ "-" ++ pad2d dt.m ++ "-" ++ pad2d dt.d

/-- Model of chrono NaiveDate::parse_from_str with format `%Y-%m-%d`,
on the character list: ten characters, dash separators, decimal digits,
and a valid calendar date; anything else is a parse error. -/
def parseDateChars : List Char → Option Date
  | [y1, y2, y3, y4, c1, m1, m2, c2, d1, d2] =>
    if c1 = '-' ∧ c2 = '-' ∧
        isDigitChar y1 ∧ isDigitChar y2 ∧ isDigitChar y3 ∧ isDigitChar y4 ∧
        isDigitChar m1 ∧ isDigitChar m2 ∧ isDigitChar d1 ∧ isDigitChar d2 then
      let y := digitVal y1 * 1000 + digitVal y2 * 100 + digitVal y3 * 10 + digitVal y4
      let m := digitVal m1 * 10 + digitVal m2
      let d := digitVal d1 * 10 + digitVal d2
      if 1 ≤ m ∧ m ≤ 12 ∧ 1 ≤ d ∧ d ≤ daysInMonth y m then
        some ⟨y, m, d⟩
      else
        none
    else
      none
  | _ => none

/-- Model of chrono NaiveDate::parse_from_str with format `%Y-%m-%d`. -/
def parseDate (s : String) : Option Date :=
  parseDateChars s.data

/-- Successor day in the Gregorian calendar. -/
def nextDay (dt : Date) : Date :=
  if dt.d < daysInMonth dt.y dt.m then ⟨dt.y, dt.m, dt.d + 1⟩
  else if dt.m < 12 then ⟨dt.y, dt.m + 1, 1⟩
  else ⟨dt.y + 1, 1, 1⟩

/-- Adding a number of days (model of `date + Duration::days(n)`). -/
def addDays : Nat → Date → Date
  | 0, dt => dt
  | n + 1, dt => addDays n (nextDay dt)

/-- Ambient data of one `call` invocation that the pre-network stage
reads: the RAPIDAPI_KEY environment variable (absent or present) and the
date `Utc::now() + Duration::days(30)` used by the departure default. -/
structure CallEnv where
  rapidApiKey : Option String
  nowPlus30 : Date
  deriving Repr, DecidableEq

/-- Outcome of the pre-network stage of `call` (lines 75-97 of
src/flight_search_tool.rs): a typed error returned before any network
activity, a panic (the `expect` on the departure-date parse), or the
resolved parameters with which the function proceeds to the network
phase (location resolution and the flight query). -/
inductive CallStage1 where
  | error (e : FlightSearchError)
  | panic (msg : String)
  | proceed (departureDate returnDate service currency : String) (adults : Nat)
  deriving Repr, DecidableEq

/-- Whether the pre-network stage panicked. -/
def CallStage1.isPanic : CallStage1 → Bool
  | .panic _ => true
  | _ => false

/-- Whether the pre-network stage returned a typed error. -/
def CallStage1.isError : CallStage1 → Bool
  | .error _ => true
  | _ => false

/-- The pre-network stage of `call`, mirroring lines 75-97: the API-key
check, the defaulting of departure date, service, adults and currency,
and the return-date default whose closure parses the departure date with
`expect` (the panic point). -/
def callStep1 (env : CallEnv) (args : FlightSearchArgs) : CallStage1 :=
  match env.rapidApiKey with
  | none => .error .MissingApiKey
  | some _ =>
    let departure_date := args.departure_date.getD (formatDate env.nowPlus30)
    let service := args.service.getD "economy"
    let adults := args.adults.getD 1
    let currency := args.currency.getD "USD"
    match args.return_date with
    | some r => .proceed departure_date r service currency adults
    | none =>
      match parseDate departure_date with
      | none => .panic "Unable to parse departure_date"
      | some dep =>
        .proceed departure_date (formatDate (addDays 7 dep)) service currency adults

/-- Days from civil date to the 1970-01-01 epoch (standard civil-calendar
conversion), used to model chrono DateTime instants. -/
def daysFromCivil (y m d : Int) : Int :=
  let y' := if m ≤ 2 then y - 1 else y
  let era := (if 0 ≤ y' then y' else y' - 399) / 400
  let yoe := y' - era * 400
  let mp := if 2 < m then m - 3 else m + 9
  let doy := (153 * mp + 2) / 5 + d - 1
  let doe := yoe * 365 + yoe / 4 - yoe / 100 + doy
  era * 146097 + doe - 719468

/-- Modelled from the spec: the second provider integration (not under
src of this repository) parses departure and arrival timestamps as
RFC3339 instants.  This models the Zulu form `YYYY-MM-DDTHH:MM:SSZ`,
returning seconds since the epoch. -/
def parseRfc3339 (s : String) : Option Int :=
  match s.data with
  | [y1, y2, y3, y4, s1, mo1, mo2, s2, d1, d2, s3, h1, h2, s4, mi1, mi2, s5, sc1, sc2, s6] =>
    if s1 = '-' ∧ s2 = '-' ∧ s3 = 'T' ∧ s4 = ':' ∧ s5 = ':' ∧ s6 = 'Z' ∧
        isDigitChar y1 ∧ isDigitChar y2 ∧ isDigitChar y3 ∧ isDigitChar y4 ∧
        isDigitChar mo1 ∧ isDigitChar mo2 ∧ isDigitChar d1 ∧ isDigitChar d2 ∧
        isDigitChar h1 ∧ isDigitChar h2 ∧ isDigitChar mi1 ∧ isDigitChar mi2 ∧
        isDigitChar sc1 ∧ isDigitChar sc2 then
      let y := digitVal y1 * 1000 + digitVal y2 * 100 + digitVal y3 * 10 + digitVal y4
      let mo := digitVal mo1 * 10 + digitVal mo2
      let d := digitVal d1 * 10 + digitVal d2
      let h := digitVal h1 * 10 + digitVal h2
      let mi := digitVal mi1 * 10 + digitVal mi2
      let sc := digitVal sc1 * 10 + digitVal sc2
      if 1 ≤ mo ∧ mo ≤ 12 ∧ 1 ≤ d ∧ d ≤ daysInMonth y mo ∧ h ≤ 23 ∧ mi ≤ 59 ∧ sc ≤ 59 then
        some (daysFromCivil y mo d * 86400 + h * 3600 + mi * 60 + sc)
      else
        none
    else
      none
  | _ => none

/-- Modelled from the spec: in the second provider integration (not under
src of this repository) the duration, when no minutes count is present,
is computed as the arithmetic difference between the parsed arrival and
departure instants, truncated to whole hours and minutes; a timestamp
that fails to parse defaults to the current instant. -/
def durationFromTimestamps (now : Int) (dep arr : String) : String :=
  let depT := (parseRfc3339 dep).getD now
  let arrT := (parseRfc3339 arr).getD now
  let mins := ((arrT - depT) / 60).toNat
  fmtMins mins

/-- One purchase-link pricing option of the second provider integration,
carrying its total price.  Modelled from the spec. -/
structure PurchaseLink where
  totalPrice : ℚ
  deriving Repr, DecidableEq

/-- Truncation toward zero (the `as` cast from f64 used as comparison
key). -/
def truncTowardZero (q : ℚ) : Int :=
  if 0 ≤ q then ⌊q⌋ else ⌈q⌉

/-- One selection step: keep the running best unless the next link is
strictly cheaper under the truncated comparison key. -/
def bestStep (best x : PurchaseLink) : PurchaseLink :=
  if truncTowardZero x.totalPrice < truncTowardZero best.totalPrice then x else best

/-- Modelled from the spec: the second provider integration (not under
src of this repository) selects, among the purchase links of one offer,
the link with the minimum total price, comparing prices truncated toward
zero; the first minimal link wins and an empty list yields none. -/
def bestLink : List PurchaseLink → Option PurchaseLink
  | [] => none
  | l :: ls => some (ls.foldl bestStep l)

/-- Modelled from the spec: the resolved price of an offer carrying
purchase links; an empty link list yields no offer (the raw entry is
dropped, not defaulted). -/
def offerPriceFromLinks (links : List PurchaseLink) : Option ℚ :=
  (bestLink links).map PurchaseLink.totalPrice

/-- Sample raw offer whose first leg carries a 225-minute duration. -/
def itemWithDuration : Json :=
  Json.obj [("legs", Json.arr [Json.obj [("durationInMinutes", Json.num 225)]])]

/-- Sample raw offer with a flat raw price of 10 and no currency field
at either candidate location. -/
def itemNoCurrency : Json :=
  Json.obj [("price", Json.obj [("raw", Json.num 10)])]

/-- Sample successful upstream response holding one bucket with one
offer (the raw price 10 one). -/
def sampleResponse : Json :=
  Json.obj [("itineraries", Json.obj [("buckets",
    Json.arr [Json.obj [("items", Json.arr [itemNoCurrency])]])])]

/-- The FlightOption that parsing itemNoCurrency with requested currency
USD produces: every absent field falls back to its documented default. -/
def sampleOption : FlightOption :=
  { airline := "Unknown Airline"
    flight_number := ""
    departure := ""
    arrival := ""
    duration := "Unknown duration"
    stops := 0
    price := 10
    currency := "USD" }

/-- Sample argument set: required fields only, all options absent. -/
def sampleArgs : FlightSearchArgs :=
  ⟨"BOM", "DEL", none, none, none, none, none⟩

/-- Argument set with an empty source and everything else defaulted. -/
def emptySourceArgs : FlightSearchArgs :=
  ⟨"", "DEL", none, none, none, none, none⟩

/-- Argument set carrying an unparsable caller-supplied departure date
and no return date. -/
def badDateArgs : FlightSearchArgs :=
  ⟨"BOM", "DEL", some "garbage", none, none, none, none⟩

/-- Argument set carrying an explicit return date. -/
def withReturnArgs : FlightSearchArgs :=
  ⟨"BOM", "DEL", none, some "2026-02-01", none, none, none⟩

lemma digitChar_toNat (k : Nat) : (digitChar k).toNat = 48 + k % 10 := by
  unfold digitChar
  have h : k % 10 < 10 := Nat.mod_lt _ (by norm_num)
  set r := k % 10 with hr
  interval_cases r <;> decide

lemma isDigitChar_digitChar (k : Nat) : isDigitChar (digitChar k) = true := by
  have h : k % 10 < 10 := Nat.mod_lt _ (by norm_num)
  simp [isDigitChar, digitChar_toNat]
  omega

lemma digitVal_digitChar (k : Nat) : digitVal (digitChar k) = k % 10 := by
  simp [digitVal, digitChar_toNat]

lemma formatDate_data (y m d : Nat) : (formatDate ⟨y, m, d⟩).data =
    [digitChar (y / 1000), digitChar (y / 100), digitChar (y / 10), digitChar y, '-',
     digitChar (m / 10), digitChar m, '-', digitChar (d / 10), digitChar d] := rfl

lemma daysInMonth_le_31 (y m : Nat) : daysInMonth y m ≤ 31 := by
  unfold daysInMonth; split_ifs <;> omega

lemma parseDate_formatDate (dt : Date) (h : ValidDate dt) : parseDate (formatDate dt) = some dt := by
  obtain ⟨y, m, d⟩ := dt
  obtain ⟨hm1, hm2, hd1, hd2, hy⟩ := h
  dsimp only at hm1 hm2 hd1 hd2 hy
  have ey : digitVal (digitChar (y / 1000)) * 1000 + digitVal (digitChar (y / 100)) * 100 +
      digitVal (digitChar (y / 10)) * 10 + digitVal (digitChar y) = y := by
    simp only [digitVal_digitChar]; omega
  have em : digitVal (digitChar (m / 10)) * 10 + digitVal (digitChar m) = m := by
    simp only [digitVal_digitChar]; omega
  have hd31 := daysInMonth_le_31 y m
  have ed : digitVal (digitChar (d / 10)) * 10 + digitVal (digitChar d) = d := by
    simp only [digitVal_digitChar]; omega
  unfold parseDate
  rw [formatDate_data]
  dsimp only [parseDateChars]
  rw [if_pos ⟨rfl, rfl, isDigitChar_digitChar _, isDigitChar_digitChar _, isDigitChar_digitChar _,
    isDigitChar_digitChar _, isDigitChar_digitChar _, isDigitChar_digitChar _,
    isDigitChar_digitChar _, isDigitChar_digitChar _⟩]
  simp only [ey, em, ed]
  rw [if_pos ⟨hm1, hm2, hd1, hd2⟩]

lemma pushItems_eq (req : String) : ∀ (items : List Json) (acc : List FlightOption),
    acc.length < 5 →
    pushItems req acc items =
      ((acc ++ items.filterMap (parseItem req)).take 5,
       decide (5 ≤ (acc ++ items.filterMap (parseItem req)).length)) := by
  intro items
  induction items with
  | nil =>
    intro acc hacc
    simp only [pushItems, List.filterMap_nil, List.append_nil]
    rw [List.take_of_length_le (le_of_lt hacc)]
    simp [decide_eq_false_iff_not]
    omega
  | cons item rest ih =>
    intro acc hacc
    unfold pushItems
    cases hp : parseItem req item with
    | none =>
      simp only [hp]
      rw [if_neg (by omega : ¬ 5 ≤ acc.length)]
      rw [ih acc hacc]
      simp [hp]
    | some o =>
      simp only [hp]
      by_cases h5 : 5 ≤ (acc ++ [o]).length
      · rw [if_pos h5]
        simp only [List.filterMap_cons, hp]
        have hassoc : acc ++ o :: rest.filterMap (parseItem req) =
            (acc ++ [o]) ++ rest.filterMap (parseItem req) := by simp
        rw [hassoc]
        rw [List.take_append_of_le_length h5]
        have hlen : (acc ++ [o]).length = 5 := by
          simp only [List.length_append, List.length_cons, List.length_nil] at h5 ⊢; omega
        rw [List.take_of_length_le (le_of_eq hlen)]
        have : decide (5 ≤ ((acc ++ [o]) ++ rest.filterMap (parseItem req)).length) = true := by
          simp only [List.length_append, List.length_cons, List.length_nil,
            decide_eq_true_eq] at h5 ⊢
          omega
        rw [this]
      · rw [if_neg h5]
        have hlt : (acc ++ [o]).length < 5 := by omega
        rw [ih (acc ++ [o]) hlt]
        simp only [List.filterMap_cons, hp]
        have hassoc : acc ++ o :: rest.filterMap (parseItem req) =
            (acc ++ [o]) ++ rest.filterMap (parseItem req) := by simp
        rw [hassoc]

lemma collectBuckets_eq (req : String) : ∀ (buckets : List Json) (acc : List FlightOption),
    acc.length < 5 →
    collectBuckets req acc buckets =
      (acc ++ (buckets.flatMap fun b =>
        ((b.get "items").bind Json.asArr).getD []).filterMap (parseItem req)).take 5 := by
  intro buckets
  induction buckets with
  | nil =>
    intro acc hacc
    simp only [collectBuckets, List.flatMap_nil, List.filterMap_nil, List.append_nil]
    rw [List.take_of_length_le (le_of_lt hacc)]
  | cons b rest ih =>
    intro acc hacc
    unfold collectBuckets
    cases hb : (b.get "items").bind Json.asArr with
    | none =>
      rw [ih acc hacc]
      simp [hb]
    | some items =>
      dsimp only
      rw [pushItems_eq req items acc hacc]
      simp only [List.flatMap_cons, hb, Option.getD_some, List.filterMap_append]
      by_cases h5 : 5 ≤ (acc ++ items.filterMap (parseItem req)).length
      · rw [decide_eq_true h5]
        rw [show acc ++ (items.filterMap (parseItem req) ++
            (rest.flatMap fun b => ((b.get "items").bind Json.asArr).getD []).filterMap (parseItem req)) =
            (acc ++ items.filterMap (parseItem req)) ++
            (rest.flatMap fun b => ((b.get "items").bind Json.asArr).getD []).filterMap (parseItem req)
          from (List.append_assoc _ _ _).symm]
        rw [List.take_append_of_le_length h5]
      · rw [decide_eq_false h5]
        have hlt : (acc ++ List.filterMap (parseItem req) items).length < 5 := by omega
        rw [List.take_of_length_le (le_of_lt hlt)]
        dsimp only
        rw [ih _ hlt]
        rw [List.append_assoc]

lemma flightOptionsOf_eq (req : String) (data : Json) :
    flightOptionsOf req data = ((allItems data).filterMap (parseItem req)).take 5 := by
  unfold flightOptionsOf allItems
  cases hi : itinerariesOf data with
  | none => simp
  | some itins =>
    cases hb : (itins.get "buckets").bind Json.asArr with
    | none => simp only [hb]; simp
    | some buckets =>
      simp only [hb]
      rw [collectBuckets_eq req buckets [] (by norm_num)]
      simp

lemma bestFold_spec : ∀ (ls : List PurchaseLink) (best : PurchaseLink),
    ((ls.foldl bestStep best) = best ∨ (ls.foldl bestStep best) ∈ ls) ∧
    truncTowardZero (ls.foldl bestStep best).totalPrice ≤ truncTowardZero best.totalPrice ∧
    ∀ x ∈ ls, truncTowardZero (ls.foldl bestStep best).totalPrice ≤ truncTowardZero x.totalPrice := by
  intro ls
  induction ls with
  | nil => intro best; simp
  | cons x rest ih =>
    intro best
    simp only [List.foldl_cons]
    obtain ⟨hmem, hle, hmin⟩ := ih (bestStep best x)
    unfold bestStep at hmem hle hmin ⊢
    by_cases hx : truncTowardZero x.totalPrice < truncTowardZero best.totalPrice
    · rw [if_pos hx] at hmem hle hmin ⊢
      refine ⟨?_, ?_, ?_⟩
      · rcases hmem with h | h
        · exact Or.inr (by rw [h]; exact List.mem_cons_self x rest)
        · exact Or.inr (List.mem_cons_of_mem x h)
      · exact le_trans hle (le_of_lt hx)
      · intro z hz
        rcases List.mem_cons.mp hz with rfl | hz
        · exact hle
        · exact hmin z hz
    · rw [if_neg hx] at hmem hle hmin ⊢
      refine ⟨?_, hle, ?_⟩
      · rcases hmem with h | h
        · exact Or.inl h
        · exact Or.inr (List.mem_cons_of_mem x h)
      intro z hz
      rcases List.mem_cons.mp hz with rfl | hz
      · exact le_trans hle (by omega)
      · exact hmin z hz

lemma renderOption_price_split (i : Nat) (o : FlightOption) :
    ∃ pre, renderOption i o =
      pre ++ ("\n   - **Price**: " ++ formatPrice o.price ++ " " ++ o.currency ++ "\n") := by
  refine ⟨toString (i + 1) ++ ". **Airline**: " ++ o.airline ++
    "\n   - **Flight Number**: " ++ o.flight_number ++
    "\n   - **Departure**: " ++ o.departure ++
    "\n   - **Arrival**: " ++ o.arrival ++
    "\n   - **Duration**: " ++ o.duration ++
    "\n   - **Stops**: " ++ renderStops o.stops, ?_⟩
  simp [renderOption, String.append_assoc]

lemma renderOption_stops_split (i : Nat) (o : FlightOption) :
    ∃ pre post, renderOption i o =
      pre ++ ("\n   - **Stops**: " ++ renderStops o.stops) ++ post := by
  refine ⟨toString (i + 1) ++ ". **Airline**: " ++ o.airline ++
    "\n   - **Flight Number**: " ++ o.flight_number ++
    "\n   - **Departure**: " ++ o.departure ++
    "\n   - **Arrival**: " ++ o.arrival ++
    "\n   - **Duration**: " ++ o.duration,
    "\n   - **Price**: " ++ formatPrice o.price ++ " " ++ o.currency ++ "\n", ?_⟩
  simp [renderOption, String.append_assoc]

/-- C1 counterexample: a parsed body with no itinerary container at
either level makes the call return the no-flights sentence as a success,
not the InvalidResponse error the claim asserts. -/
theorem c1_missing_container_counterexample :
    itinerariesOf (Json.obj []) = none ∧
    processResponse "USD" (Json.obj []) =
      Except.ok "No flights found for the given criteria." :=
  ⟨rfl, rfl⟩

/-- C1 (amended): whether the itinerary container is entirely absent or
present with zero surviving offers, the call returns exactly the
no-flights sentence as a success; no error is raised in either case. -/
theorem c1_no_offers_yields_sentence (req : String) (data : Json)
    (h : itinerariesOf data = none ∨ (allItems data).filterMap (parseItem req) = []) :
    processResponse req data = Except.ok "No flights found for the given criteria." := by
  have hopts : flightOptionsOf req data = [] := by
    rw [flightOptionsOf_eq]
    rcases h with h | h
    · unfold allItems
      rw [h]
      simp
    · rw [h]
      simp
  unfold processResponse
  rw [hopts]
  rfl

/-- C1 witness: a response whose container is present but holds zero
offers yields the sentence. -/
theorem c1_no_offers_yields_sentence_witness :
    processResponse "USD"
      (Json.obj [("itineraries", Json.obj [("buckets", Json.arr [])])]) =
      Except.ok "No flights found for the given criteria." :=
  c1_no_offers_yields_sentence "USD" _ (Or.inr rfl)

/-- C2: a present minutes count is reformatted as "H hours M minutes";
with only timestamps present (spec-modelled second integration), the
duration is the difference of the parsed RFC3339 instants truncated to
whole hours and minutes, and the documented example evaluates to
"3 hours 45 minutes". -/
theorem c2_duration_derivation :
    (∀ (item : Json) (mins : Nat), durationMinutesOf item = some mins →
      extractDuration item =
        toString (mins / 60) ++ " hours " ++ toString (mins % 60) ++ " minutes") ∧
    (∀ now : Int,
      durationFromTimestamps now "2025-05-25T10:00:00Z" "2025-05-25T13:45:00Z" =
        "3 hours 45 minutes") := by
  constructor
  · intro item mins h
    unfold extractDuration
    rw [h]
    rfl
  · intro now
    have h1 : parseRfc3339 "2025-05-25T10:00:00Z" = some 1748167200 := by rfl
    have h2 : parseRfc3339 "2025-05-25T13:45:00Z" = some 1748180700 := by rfl
    unfold durationFromTimestamps
    rw [h1, h2]
    simp only [Option.getD_some]
    decide

/-- C2 witness: a raw offer with a 225-minute first leg renders as
"3 hours 45 minutes", as does the documented timestamp pair. -/
theorem c2_duration_derivation_witness :
    extractDuration itemWithDuration = "3 hours 45 minutes" ∧
    durationFromTimestamps 0 "2025-05-25T10:00:00Z" "2025-05-25T13:45:00Z" =
      "3 hours 45 minutes" :=
  ⟨(c2_duration_derivation.1 itemWithDuration 225 rfl).trans rfl,
   c2_duration_derivation.2 0⟩

/-- C3 (spec-modelled): among a nonempty purchase-link list the resolved
price is that of a member link minimal under the truncated-toward-zero
comparison key, and an empty link list resolves to no price at all (the
raw entry is dropped). -/
theorem c3_best_price_selection :
    (∀ links : List PurchaseLink, links ≠ [] →
      ∃ l, l ∈ links ∧ offerPriceFromLinks links = some l.totalPrice ∧
        ∀ x ∈ links, truncTowardZero l.totalPrice ≤ truncTowardZero x.totalPrice) ∧
    offerPriceFromLinks [] = none := by
  constructor
  · intro links hne
    match links with
    | [] => exact absurd rfl hne
    | a :: ls =>
      obtain ⟨hmem, hle, hmin⟩ := bestFold_spec ls a
      refine ⟨ls.foldl bestStep a, ?_, rfl, ?_⟩
      · rcases hmem with h | h
        · rw [h]; exact List.mem_cons_self a ls
        · exact List.mem_cons_of_mem a h
      · intro x hx
        rcases List.mem_cons.mp hx with rfl | hx
        · exact hle
        · exact hmin x hx
  · rfl

/-- C3 witness: on two links with prices 3 and 2 the second link is
selected. -/
theorem c3_best_price_selection_witness :
    ∃ l, l ∈ [PurchaseLink.mk 3, PurchaseLink.mk 2] ∧
      offerPriceFromLinks [PurchaseLink.mk 3, PurchaseLink.mk 2] = some l.totalPrice ∧
      ∀ x ∈ [PurchaseLink.mk 3, PurchaseLink.mk 2],
        truncTowardZero l.totalPrice ≤ truncTowardZero x.totalPrice :=
  c3_best_price_selection.1 _ (by simp)

/-- C4: an offer whose resolved price is not strictly positive is
dropped and never becomes a FlightOption; an offer that survives has a
strictly positive price, carries exactly the resolved price, and its
rendered block shows that price formatted to two decimal places followed
by the resolved currency code. -/
theorem c4_positive_price_filter_and_rendering (req : String) (item : Json) :
    (priceOf item ≤ 0 → parseItem req item = none) ∧
    (∀ opt, parseItem req item = some opt →
      0 < opt.price ∧ opt.price = priceOf item ∧
      ∀ i : Nat, ∃ pre, renderOption i opt =
        pre ++ ("\n   - **Price**: " ++ formatPrice opt.price ++ " " ++ opt.currency ++ "\n")) := by
  constructor
  · intro h
    have hn : ¬ 0 < priceOf item := not_lt.mpr h
    unfold parseItem
    rw [if_neg hn]
  · intro opt h
    revert h
    unfold parseItem
    by_cases hp : 0 < priceOf item
    · rw [if_pos hp]
      intro h
      obtain rfl := Option.some.inj h
      exact ⟨hp, rfl, fun i => renderOption_price_split i _⟩
    · rw [if_neg hp]
      intro h
      exact absurd h (by simp)

/-- C4 witness: the zero-priced empty offer is dropped; the raw-price-10
offer survives with price 10 and its block ends with the price line. -/
theorem c4_positive_price_filter_and_rendering_witness :
    parseItem "USD" (Json.obj []) = none ∧
    (0 < sampleOption.price ∧ sampleOption.price = priceOf itemNoCurrency ∧
      ∃ pre, renderOption 0 sampleOption =
        pre ++ ("\n   - **Price**: " ++ formatPrice sampleOption.price ++ " " ++
          sampleOption.currency ++ "\n")) := by
  refine ⟨(c4_positive_price_filter_and_rendering "USD" (Json.obj [])).1 (by decide), ?_⟩
  obtain ⟨h1, h2, h3⟩ :=
    (c4_positive_price_filter_and_rendering "USD" itemNoCurrency).2 sampleOption (by decide)
  exact ⟨h1, h2, h3 0⟩

/-- C5: the collected option sequence is exactly the first five
positively-priced offers of the upstream bucket walk, in upstream order;
in particular it never holds more than five entries, and the non-empty
rendering is the report over exactly that sequence. -/
theorem c5_cap_and_order (req : String) (data : Json) :
    (flightOptionsOf req data).length ≤ 5 ∧
    flightOptionsOf req data = ((allItems data).filterMap (parseItem req)).take 5 ∧
    (flightOptionsOf req data ≠ [] →
      processResponse req data = Except.ok (renderReport (flightOptionsOf req data))) := by
  refine ⟨?_, flightOptionsOf_eq req data, ?_⟩
  · rw [flightOptionsOf_eq]
    simp [List.length_take]
  · intro h
    unfold processResponse
    rw [if_neg (by simpa using h)]

/-- C5 witness: on the sample response the collected sequence is
non-empty and the call renders the report over it. -/
theorem c5_cap_and_order_witness :
    (flightOptionsOf "USD" sampleResponse).length ≤ 5 ∧
    processResponse "USD" sampleResponse =
      Except.ok (renderReport (flightOptionsOf "USD" sampleResponse)) :=
  ⟨(c5_cap_and_order "USD" sampleResponse).1,
   (c5_cap_and_order "USD" sampleResponse).2.2 (by decide)⟩

/-- C6: evaluation of the pre-network stage at the failing input: with
the API key present and an empty source, the call performs no validation
and proceeds to the network phase (location resolution) instead of
returning an error first. -/
theorem c6_empty_source_reaches_network :
    callStep1 ⟨some "key", ⟨2026, 1, 1⟩⟩ emptySourceArgs =
      CallStage1.proceed "2026-01-01" "2026-01-08" "economy" "USD" 1 := by
  decide

/-- C7: with the RAPIDAPI_KEY environment variable absent the call
returns the MissingApiKey error from its very first step; the network
phase (the proceed outcome) is never reached, so zero network requests
are issued. -/
theorem c7_missing_api_key (env : CallEnv) (args : FlightSearchArgs)
    (h : env.rapidApiKey = none) :
    callStep1 env args = CallStage1.error FlightSearchError.MissingApiKey := by
  unfold callStep1
  rw [h]

/-- C7 witness: concrete invocation without the key. -/
theorem c7_missing_api_key_witness :
    callStep1 ⟨none, ⟨2026, 1, 1⟩⟩ sampleArgs =
      CallStage1.error FlightSearchError.MissingApiKey :=
  c7_missing_api_key _ _ rfl

/-- C8: an offer exposing no per-offer currency code at either candidate
location inherits the caller-requested currency (USD when the caller
supplied none), and the rendered price line ends with that currency. -/
theorem c8_currency_fallback (args : FlightSearchArgs) (item : Json) (opt : FlightOption)
    (hc : perOfferCurrency item = none)
    (hp : parseItem (requestedCurrency args) item = some opt) :
    opt.currency = requestedCurrency args ∧
    (args.currency = none → opt.currency = "USD") ∧
    ∀ i : Nat, ∃ pre, renderOption i opt =
      pre ++ ("\n   - **Price**: " ++ formatPrice opt.price ++ " " ++ opt.currency ++ "\n") := by
  revert hp
  unfold parseItem
  by_cases h0 : 0 < priceOf item
  · rw [if_pos h0]
    intro hp
    obtain rfl := Option.some.inj hp
    refine ⟨?_, ?_, fun i => renderOption_price_split i _⟩
    · dsimp only
      rw [hc]
      rfl
    · intro hnone
      dsimp only
      rw [hc]
      unfold requestedCurrency
      rw [hnone]
      rfl
  · rw [if_neg h0]
    intro hp
    exact absurd hp (by simp)

/-- C8 witness: the raw-price offer without currency fields, requested
by an argument set with no caller currency, renders in USD. -/
theorem c8_currency_fallback_witness :
    sampleOption.currency = requestedCurrency sampleArgs ∧
    sampleOption.currency = "USD" := by
  obtain ⟨h1, h2, h3⟩ :=
    c8_currency_fallback sampleArgs itemNoCurrency sampleOption (by decide) (by decide)
  exact ⟨h1, h2 rfl⟩

/-- C9: the stops field of every rendered block goes through the
stop-count renderer, which renders a zero stop count exactly as
"Non-stop" and a positive count n exactly as the number followed by
" stop(s)". -/
theorem c9_stops_rendering :
    (∀ (i : Nat) (o : FlightOption), ∃ pre post, renderOption i o =
      pre ++ ("\n   - **Stops**: " ++ renderStops o.stops) ++ post) ∧
    renderStops 0 = "Non-stop" ∧
    (∀ n : Nat, 0 < n → renderStops n = toString n ++ " stop(s)") := by
  refine ⟨fun i o => renderOption_stops_split i o, rfl, ?_⟩
  intro n hn
  unfold renderStops
  rw [if_neg (by omega)]

/-- C9 witness: three stops render as "3 stop(s)" and zero as
"Non-stop". -/
theorem c9_stops_rendering_witness :
    renderStops 3 = "3 stop(s)" ∧ renderStops 0 = "Non-stop" :=
  ⟨(c9_stops_rendering.2.2 3 (by decide)).trans (by decide), c9_stops_rendering.2.1⟩

/-- C10: the return-date default cannot panic when a return date is
present, when the departure date is absent (the formatted now-plus-30
default always parses back), or when the supplied departure date parses;
but with no return date and an unparsable caller-supplied departure
date, the call panics through the expect on the parse result instead of
returning a typed error. -/
theorem c10_return_date_panic :
    (∀ (env : CallEnv) (args : FlightSearchArgs), ValidDate env.nowPlus30 →
      (args.return_date.isSome = true ∨ args.departure_date = none ∨
        (∃ s dt, args.departure_date = some s ∧ parseDate s = some dt)) →
      (callStep1 env args).isPanic = false) ∧
    (∀ (env : CallEnv) (args : FlightSearchArgs) (k s : String),
      env.rapidApiKey = some k → args.return_date = none →
      args.departure_date = some s → parseDate s = none →
      callStep1 env args = CallStage1.panic "Unable to parse departure_date") := by
  constructor
  · intro env args hv hd
    unfold callStep1
    cases hk : env.rapidApiKey with
    | none => rfl
    | some k =>
      dsimp only
      cases hr : args.return_date with
      | some r => rfl
      | none =>
        rcases hd with hd | hd | ⟨s, dt, hs, hparse⟩
        · rw [hr] at hd; simp at hd
        · rw [hd]
          dsimp only [Option.getD_none]
          rw [parseDate_formatDate env.nowPlus30 hv]
          rfl
        · rw [hs]
          dsimp only [Option.getD_some]
          rw [hparse]
          rfl
  · intro env args k s hk hr hs hparse
    unfold callStep1
    rw [hk]
    dsimp only
    rw [hr, hs]
    dsimp only [Option.getD_some]
    rw [hparse]

/-- C10 witness: a present return date cannot panic; the unparsable
departure date with no return date panics. -/
theorem c10_return_date_panic_witness :
    (callStep1 ⟨some "key", ⟨2026, 1, 1⟩⟩ withReturnArgs).isPanic = false ∧
    callStep1 ⟨some "key", ⟨2026, 1, 1⟩⟩ badDateArgs =
      CallStage1.panic "Unable to parse departure_date" :=
  ⟨c10_return_date_panic.1 _ withReturnArgs (by decide) (Or.inl rfl),
   c10_return_date_panic.2 _ badDateArgs "key" "garbage" rfl rfl rfl (by decide)⟩
